import Mathlib

/-!
Shallow embedding of the discord-homelab-bot source (src/index.js) in Lean 4.

JavaScript strings are modelled as Lean `String`s (lists of characters);
string lengths are character counts.  Fallible operations (file reads,
container-runtime calls, the external-IP fetch) are modelled by `Option`
inputs: `none` stands for the throwing / absent case, which the source
always catches.  The state file holding the last external IP is modelled
as an `Option String` (the raw file content, `none` when the file is
missing or unreadable).
-/

/-! ### JavaScript string primitives -/

/-- Characters removed by JavaScript's `String.prototype.trim` (the white
space and line-terminator sets; the common members are listed). -/
def isJsWhitespace (c : Char) : Bool :=
  c = ' ' || c = '\t' || c = '\n' || c = '\r' ||
  c = '\x0b' || c = '\x0c' || c = '\u00A0' || c = '\uFEFF'

/-- Drop leading and trailing JS whitespace from a character list. -/
def jsTrimList (l : List Char) : List Char :=
  ((l.dropWhile isJsWhitespace).reverse.dropWhile isJsWhitespace).reverse

/-- JavaScript `s.trim()`. -/
def jsTrim (s : String) : String :=
  String.mk (jsTrimList s.data)

/-- Split a character list at every separator character (JS
`s.split(sep)` semantics: adjacent separators produce empty chunks, and
the result is never empty). -/
def splitChunks (p : Char → Bool) : List Char → List (List Char)
  | [] => [[]]
  | c :: rest =>
    if p c then [] :: splitChunks p rest
    else
      match splitChunks p rest with
      | [] => [[c]]
      | w :: ws => (c :: w) :: ws

/-- JavaScript `line.trim().split(/\s+/)`: on a whitespace-only string the
result is `[""]`; otherwise the maximal non-whitespace runs. -/
def jsSplitWs (line : String) : List String :=
  let t := jsTrim line
  if t.data = [] then [""]
  else ((splitChunks isJsWhitespace t.data).filter (fun w => w ≠ [])).map String.mk

/-- JavaScript `Array.prototype.join(sep)`. -/
def joinWith (sep : String) : List String → String
  | [] => ""
  | [s] => s
  | s :: rest => s ++ sep ++ joinWith sep rest

/-- JavaScript `s.substring(start, stop)` on the character list
(`start ≤ stop` at every call site; out-of-range indices clamp). -/
def jsSubstringChars (l : List Char) (start stop : Nat) : List Char :=
  (l.drop start).take (stop - start)

/-! ### formatDuration (src/index.js:333-346) -/

/-- `formatDuration(milliseconds)`: `Math.max(0, Math.floor(ms / 1000))`
then day/hour/minute decomposition; a unit is pushed only when nonzero
(JS falsiness of 0) and seconds only when no larger part was pushed. -/
def formatDuration (milliseconds : Int) : String :=
  let totalSeconds : Nat := (max (0 : Int) (Int.fdiv milliseconds 1000)).toNat
  let days := totalSeconds / 86400
  let hours := totalSeconds % 86400 / 3600
  let minutes := totalSeconds % 3600 / 60
  let seconds := totalSeconds % 60
  let parts : List String :=
    (if days ≠ 0 then [toString days ++ "d"] else []) ++
    (if hours ≠ 0 then [toString hours ++ "h"] else []) ++
    (if minutes ≠ 0 then [toString minutes ++ "m"] else [])
  let parts := if parts = [] then [toString seconds ++ "s"] else parts
  joinWith " " parts

/-! ### formatStatusReport (src/index.js:348-384) -/

/-- One entry of `listRunningContainersWithUptime`'s result: a container
name and its already-formatted uptime string. -/
structure ContainerEntry where
  name : String
  uptime : String

/-- The per-container report line `${container.name} — ${container.uptime}`. -/
def containerLine (c : ContainerEntry) : String :=
  c.name ++ " — " ++ c.uptime

/-- `formattedContainers` from the source: a placeholder when the list is
empty, otherwise one line per container. -/
def formattedContainerLines (containers : List ContainerEntry) : List String :=
  if containers.isEmpty then ["(no running containers)"]
  else containers.map containerLine

/-- The report header template literal. -/
def statusHeader (gatewayIp externalIp : String) (count : Nat) : String :=
  "📊 **Homelab Status Report**\n\n**Host IP:** `" ++ gatewayIp ++
  "`\n**External IP:** `" ++ externalIp ++
  "`\n**Running containers:** `" ++ toString count ++ "`\n\n**Containers**"

/-- The overflow summary line pushed when container lines are omitted. -/
def truncationMessage (remaining : Nat) : String :=
  "…and " ++ toString remaining ++ " more"

/-- The `for` loop of `formatStatusReport`: greedily append container
lines while they fit `available`, then try the summary line once. -/
def statusLinesLoop (available : Int) : List String → List String → Nat → List String
  | [], acc, _ => acc
  | line :: rest, acc, used =>
    let lineLength := (if acc.isEmpty then 0 else 1) + line.length
    if available < (used : Int) + lineLength then
      let truncationLine := truncationMessage (rest.length + 1)
      let truncationLength := (if acc.isEmpty then 0 else 1) + truncationLine.length
      if (used : Int) + truncationLength ≤ available then acc ++ [truncationLine] else acc
    else
      statusLinesLoop available rest (acc ++ [line]) (used + lineLength)

/-- `formatStatusReport(gatewayIp, externalIp, containers)`. -/
def formatStatusReport (gatewayIp externalIp : String) (containers : List ContainerEntry) : String :=
  let header := statusHeader gatewayIp externalIp containers.length
  let available : Int := 1900 - (header.length : Int) - 1
  let lines := statusLinesLoop available (formattedContainerLines containers) [] 0
  header ++ "\n" ++ joinWith "\n" lines

/-! ### getGatewayIpAddress / hexToIp (src/index.js:386-413) -/

/-- Hex-digit test used by `parseInt(·, 16)`. -/
def isHexDigitChar (c : Char) : Bool :=
  ('0' ≤ c && c ≤ '9') || ('a' ≤ c && c ≤ 'f') || ('A' ≤ c && c ≤ 'F')

/-- Value of a hex digit. -/
def hexDigitVal (c : Char) : Nat :=
  if '0' ≤ c && c ≤ '9' then c.toNat - '0'.toNat
  else if 'a' ≤ c && c ≤ 'f' then c.toNat - 'a'.toNat + 10
  else c.toNat - 'A'.toNat + 10

/-- Accumulate the maximal leading run of hex digits. -/
def hexRun : List Char → Nat → Nat
  | [], acc => acc
  | c :: rest, acc =>
    if isHexDigitChar c then hexRun rest (16 * acc + hexDigitVal c) else acc

/-- Unsigned part of `parseInt(s, 16)`: an optional `0x`/`0X` marker, then
at least one hex digit (`none` = NaN), parsing the maximal valid prefix. -/
def parseHexDigits (l : List Char) : Option Nat :=
  let l := match l with
    | '0' :: 'x' :: rest => rest
    | '0' :: 'X' :: rest => rest
    | _ => l
  match l with
  | [] => none
  | c :: _ => if isHexDigitChar c then some (hexRun l 0) else none

/-- JavaScript `parseInt(s, 16)`: leading whitespace skipped, optional
sign, `none` = NaN. -/
def jsParseIntHex (s : List Char) : Option Int :=
  let l := s.dropWhile isJsWhitespace
  match l with
  | '-' :: rest => (parseHexDigits rest).map (fun n => -(n : Int))
  | '+' :: rest => (parseHexDigits rest).map (fun n => (n : Int))
  | _ => (parseHexDigits l).map (fun n => (n : Int))

/-- Template-literal rendering of a JS number that is an integer or NaN. -/
def jsNumToString : Option Int → String
  | none => "NaN"
  | some i => toString i

/-- `hexToIp(hexString)`: four 2-character substrings at 0,2,4,6, each
parsed as hex, reversed, joined with dots. -/
def hexToIp (hexString : String) : String :=
  let bytes := [jsSubstringChars hexString.data 0 2,
                jsSubstringChars hexString.data 2 4,
                jsSubstringChars hexString.data 4 6,
                jsSubstringChars hexString.data 6 8]
  joinWith "." ((bytes.map (fun b => jsNumToString (jsParseIntHex b))).reverse)

/-- A hex digit character (lowercase), used to state the byte-reversal
property of `hexToIp` over the little-endian hex encoding. -/
def hexDigitChar (n : Nat) : Char :=
  if n < 10 then Char.ofNat ('0'.toNat + n) else Char.ofNat ('a'.toNat + n - 10)

/-- The two-digit lowercase hex encoding of a byte. -/
def hexPair (b : Nat) : String :=
  String.mk [hexDigitChar (b / 16), hexDigitChar (b % 16)]

/-- The non-header lines of the routing table:
`routeData.trim().split('\n').slice(1)`. -/
def gatewayRouteLines (routeData : String) : List String :=
  (((splitChunks (fun c => c = '\n')) (jsTrim routeData).data).map String.mk).drop 1

/-- The loop body test of `getGatewayIpAddress`: fields `parts[1]`
(destination) and `parts[2]` (gateway); an absent field (`undefined`) is
modelled as `""`, which is equally falsy and equally unequal to
`"00000000"`.  Returns the gateway field when the line qualifies. -/
def routeFieldsQualify (line : String) : Option String :=
  let parts := jsSplitWs line
  let destination := parts.getD 1 ""
  let gateway := parts.getD 2 ""
  if destination = "00000000" && gateway ≠ "" then some gateway else none

/-- The `for` loop of `getGatewayIpAddress`: first qualifying line wins. -/
def findDefaultGateway : List String → Option String
  | [] => none
  | line :: rest =>
    match routeFieldsQualify line with
    | some gw => some gw
    | none => findDefaultGateway rest

/-- `getGatewayIpAddress()`: the routing-table file content, or `none`
when the read throws; an unreadable file or no qualifying line yields the
`"unknown"` sentinel and the function never throws. -/
def getGatewayIpAddress (routeFile : Option String) : String :=
  match routeFile with
  | none => "unknown"
  | some routeData =>
    match findDefaultGateway (gatewayRouteLines routeData) with
    | some gateway => hexToIp gateway
    | none => "unknown"

/-! ### normalizeRequestedLogLines (src/index.js:252-261) -/

/-- Result record of `normalizeRequestedLogLines`. -/
structure LogLinesResult where
  lines : Nat
  maxEnforced : Bool

/-- `normalizeRequestedLogLines(linesArg)`.  The only call site passes
`interaction.options.getInteger('lines')`, an integer or `null`;
`parseInt` maps `null` to NaN (modelled `none`) and an integer to itself.
NaN and non-positive values default to 10; `parsed >= 50` clamps to 50
with the cap flag. -/
def normalizeRequestedLogLines (linesArg : Option Int) : LogLinesResult :=
  match linesArg with
  | none => ⟨10, false⟩
  | some parsed =>
    if parsed ≤ 0 then ⟨10, false⟩
    else if 50 ≤ parsed then ⟨50, true⟩
    else ⟨parsed.toNat, false⟩

/-! ### external-IP validity, persisted state (src/index.js:474-519) -/

/-- `isValidExternalIp(ipAddress)` on a string: `Boolean(s)` is falsy
exactly for the empty string. -/
def isValidExternalIp (ipAddress : String) : Bool :=
  ipAddress ≠ "" && ipAddress ≠ "unknown"

/-- `isValidExternalIp` applied to a string-or-null value
(`Boolean(null) = false`). -/
def isValidExternalIpOpt : Option String → Bool
  | none => false
  | some ip => isValidExternalIp ip

/-- `readLastExternalIp(filePath)`: the file content or `none` when the
read throws (missing or unreadable file); whitespace-only content reads
as `null`. -/
def readLastExternalIp (fileContent : Option String) : Option String :=
  match fileContent with
  | none => none
  | some saved =>
    let trimmed := jsTrim saved
    if trimmed = "" then none else some trimmed

/-- `writeLastExternalIp(filePath, ipAddress)`: the file content written,
`${ipAddress}\n`. -/
def writeLastExternalIp (ipAddress : String) : String :=
  ipAddress ++ "\n"

/-! ### buildStatusReport (src/index.js:175-198) -/

/-- The record returned by a successful `buildStatusReport`. -/
structure StatusReport where
  report : String
  externalIp : String
  lastExternalIp : Option String
  externalIpChanged : Bool

/-- The non-deterministic inputs of one `buildStatusReport` invocation:
the gateway lookup result, the external-IP fetch result (both total,
sentinel-valued), and the container listing (`none` when
`listRunningContainersWithUptime` throws). -/
structure PipelineEnv where
  gatewayIp : String
  externalIp : String
  containersResult : Option (List ContainerEntry)

/-- `buildStatusReport()` as a transformer of the state file: takes the
current file content and returns the report (or `none` when the container
listing threw and the catch-all returned `null`) together with the file
content afterwards.  The persisted write happens before the container
listing, so it survives a listing failure. -/
def buildStatusReport (env : PipelineEnv) (stateFile : Option String) :
    Option StatusReport × Option String :=
  let lastExternalIp := readLastExternalIp stateFile
  let externalIpChanged :=
    isValidExternalIp env.externalIp &&
    isValidExternalIpOpt lastExternalIp &&
    !(lastExternalIp == some env.externalIp)
  let stateFileAfter :=
    if isValidExternalIp env.externalIp &&
       (externalIpChanged || !isValidExternalIpOpt lastExternalIp)
    then some (writeLastExternalIp env.externalIp)
    else stateFile
  match env.containersResult with
  | none => (none, stateFileAfter)
  | some containers =>
    (some { report := formatStatusReport env.gatewayIp env.externalIp containers,
            externalIp := env.externalIp,
            lastExternalIp := lastExternalIp,
            externalIpChanged := externalIpChanged },
     stateFileAfter)

/-! ### stopContainer / startContainer (src/index.js:214-250) -/

/-- Calls issued to the container runtime. -/
inductive DockerCall where
  | inspect (name : String)
  | stop (name : String)
  | start (name : String)
deriving DecidableEq

/-- The part of `container.inspect()` the handlers look at:
`Boolean(details?.State?.Running)`. -/
structure ContainerInfo where
  running : Bool

/-- `stopContainer(containerName)`: the runtime is an inspection oracle
(`none` = inspect throws) plus the outcome of the `stop` call; returns
the reply and the calls issued. -/
def stopContainer (inspectResult : String → Option ContainerInfo) (stopSucceeds : Bool)
    (containerName : String) : String × List DockerCall :=
  if containerName = "" then ("Usage: /stop <container-name>", [])
  else
    match inspectResult containerName with
    | none =>
      ("Unable to stop " ++ containerName ++ " right now.", [DockerCall.inspect containerName])
    | some details =>
      if !details.running then
        (containerName ++ " is already stopped.", [DockerCall.inspect containerName])
      else if stopSucceeds then
        ("Stopped " ++ containerName ++ ".",
         [DockerCall.inspect containerName, DockerCall.stop containerName])
      else
        ("Unable to stop " ++ containerName ++ " right now.",
         [DockerCall.inspect containerName, DockerCall.stop containerName])

/-- `startContainer(containerName)`, symmetric to `stopContainer`. -/
def startContainer (inspectResult : String → Option ContainerInfo) (startSucceeds : Bool)
    (containerName : String) : String × List DockerCall :=
  if containerName = "" then ("Usage: /start <container-name>", [])
  else
    match inspectResult containerName with
    | none =>
      ("Unable to start " ++ containerName ++ " right now.", [DockerCall.inspect containerName])
    | some details =>
      if details.running then
        (containerName ++ " is already running.", [DockerCall.inspect containerName])
      else if startSucceeds then
        ("Started " ++ containerName ++ ".",
         [DockerCall.inspect containerName, DockerCall.start containerName])
      else
        ("Unable to start " ++ containerName ++ " right now.",
         [DockerCall.inspect containerName, DockerCall.start containerName])

/-! ### Interaction authorization gate (src/index.js:70-75) -/

/-- The allow-list configuration read from the environment at startup;
`none` = variable unset, `some ""` = set but empty (both falsy in JS). -/
structure AuthConfig where
  allowedChannelId : Option String
  allowedUserId : Option String

/-- The fields of an inbound interaction the gate looks at. -/
structure Interaction where
  isChatInputCommand : Bool
  channelId : String
  userId : String
  commandName : String

/-- `if (allowedChannelId && interaction.channelId !== allowedChannelId) return;` -/
def channelBlocked (cfg : AuthConfig) (i : Interaction) : Bool :=
  match cfg.allowedChannelId with
  | none => false
  | some c => c ≠ "" && i.channelId ≠ c

/-- `if (allowedUserId && interaction.user.id !== allowedUserId) return;` -/
def userBlocked (cfg : AuthConfig) (i : Interaction) : Bool :=
  match cfg.allowedUserId with
  | none => false
  | some u => u ≠ "" && i.userId ≠ u

/-- The `InteractionCreate` handler up to dispatch: `none` means the
handler returned without replying and without running any command
handler; `some cmd` means the `switch` on `interaction.commandName` runs
(every branch of which produces a reply). -/
def handleInteraction (cfg : AuthConfig) (i : Interaction) : Option String :=
  if !i.isChatInputCommand then none
  else if channelBlocked cfg i then none
  else if userBlocked cfg i then none
  else some i.commandName

/-! ### Helper lemmas about the JS string primitives -/

theorem list_dropWhile_length_le {α : Type} (p : α → Bool) :
    ∀ l : List α, (l.dropWhile p).length ≤ l.length := by
  intro l
  induction l with
  | nil => simp [List.dropWhile]
  | cons a t ih =>
    rw [List.dropWhile_cons]
    split
    · exact le_trans ih (Nat.le_succ _)
    · simp

theorem list_dropWhile_eq_self_of_length {α : Type} (p : α → Bool) :
    ∀ l : List α, (l.dropWhile p).length = l.length → l.dropWhile p = l := by
  intro l h
  induction l with
  | nil => simp [List.dropWhile]
  | cons a t _ =>
    rw [List.dropWhile_cons] at h ⊢
    by_cases hp : p a = true
    · rw [if_pos hp] at h ⊢
      exfalso
      have hle := list_dropWhile_length_le p t
      simp at h
      omega
    · rw [if_neg hp]

theorem list_dropWhile_head_false {α : Type} (p : α → Bool) (a : α) (t : List α)
    (h : (a :: t).dropWhile p = a :: t) : p a = false := by
  by_cases hp : p a = true
  · rw [List.dropWhile_cons, if_pos hp] at h
    have h1 := list_dropWhile_length_le p t
    have h2 := congrArg List.length h
    simp at h2
    omega
  · simpa using hp

theorem jsTrimList_fixed (l : List Char) (h : jsTrimList l = l) :
    l.dropWhile isJsWhitespace = l ∧ l.reverse.dropWhile isJsWhitespace = l.reverse := by
  unfold jsTrimList at h
  have hBlen : ((l.dropWhile isJsWhitespace).reverse.dropWhile isJsWhitespace).length
      = l.length := by
    rw [← List.length_reverse ((l.dropWhile isJsWhitespace).reverse.dropWhile isJsWhitespace), h]
  have h1 : (l.dropWhile isJsWhitespace).length ≤ l.length :=
    list_dropWhile_length_le _ _
  have h2 : ((l.dropWhile isJsWhitespace).reverse.dropWhile isJsWhitespace).length
      ≤ (l.dropWhile isJsWhitespace).length := by
    have := list_dropWhile_length_le isJsWhitespace (l.dropWhile isJsWhitespace).reverse
    simpa using this
  have hAlen : (l.dropWhile isJsWhitespace).length = l.length := by omega
  have hAeq : l.dropWhile isJsWhitespace = l :=
    list_dropWhile_eq_self_of_length _ _ hAlen
  refine ⟨hAeq, ?_⟩
  rw [hAeq] at h
  rw [List.reverse_eq_iff] at h
  exact h

theorem jsTrimList_append_newline (l : List Char) (hne : l ≠ [])
    (h : jsTrimList l = l) : jsTrimList (l ++ ['\n']) = l := by
  obtain ⟨h1, h2⟩ := jsTrimList_fixed l h
  obtain ⟨a, t, rfl⟩ := List.exists_cons_of_ne_nil hne
  have hpa : isJsWhitespace a = false := list_dropWhile_head_false _ _ _ h1
  unfold jsTrimList
  have st1 : ((a :: t) ++ ['\n']).dropWhile isJsWhitespace = (a :: t) ++ ['\n'] := by
    rw [List.cons_append, List.dropWhile_cons, hpa]
    simp
  rw [st1]
  have st2 : ((a :: t) ++ ['\n']).reverse = '\n' :: (a :: t).reverse := by
    simp
  rw [st2, List.dropWhile_cons]
  have hnl : isJsWhitespace '\n' = true := by decide
  rw [if_pos hnl, h2]
  simp

/-- C10: writing a trimmed non-empty address and reading the file back
returns exactly that address (write appends a single newline, read trims
it away), and the read is absent exactly when the file is missing,
unreadable, or whitespace-only. -/
theorem c10_write_read_roundtrip :
    (∀ addr : String, addr ≠ "" → jsTrim addr = addr →
       readLastExternalIp (some (writeLastExternalIp addr)) = some addr) ∧
    (∀ fileContent : Option String,
       readLastExternalIp fileContent = none ↔
         fileContent = none ∨ ∃ c, fileContent = some c ∧ jsTrim c = "") := by
  constructor
  · intro addr hne htrim
    have hdata : addr.data ≠ [] := by
      intro hd
      exact hne (String.ext (by simp [hd]))
    have htriml : jsTrimList addr.data = addr.data := by
      have := congrArg String.data htrim
      simpa [jsTrim] using this
    have hkey : jsTrim (writeLastExternalIp addr) = addr := by
      unfold writeLastExternalIp jsTrim
      have hd : (addr ++ "\n").data = addr.data ++ ['\n'] := by
        simp [String.data_append]
      rw [hd, jsTrimList_append_newline addr.data hdata htriml]
    show (if jsTrim (writeLastExternalIp addr) = "" then none
          else some (jsTrim (writeLastExternalIp addr))) = some addr
    rw [hkey]
    simp [hne]
  · intro fileContent
    cases fileContent with
    | none => simp [readLastExternalIp]
    | some c =>
      unfold readLastExternalIp
      split
      · simp_all
      · simp_all

/-! ### C3: formatDuration -/

theorem formatDuration_natSeconds (t : Nat) :
    formatDuration ((t * 1000 : Nat) : Int) =
      joinWith " "
        (if (if t / 86400 ≠ 0 then [toString (t / 86400) ++ "d"] else []) ++
            (if t % 86400 / 3600 ≠ 0 then [toString (t % 86400 / 3600) ++ "h"] else []) ++
            (if t % 3600 / 60 ≠ 0 then [toString (t % 3600 / 60) ++ "m"] else []) = []
         then [toString (t % 60) ++ "s"]
         else
           (if t / 86400 ≠ 0 then [toString (t / 86400) ++ "d"] else []) ++
           (if t % 86400 / 3600 ≠ 0 then [toString (t % 86400 / 3600) ++ "h"] else []) ++
           (if t % 3600 / 60 ≠ 0 then [toString (t % 3600 / 60) ++ "m"] else [])) := by
  have h1 : ((t * 1000 : Nat) : Int) = (t : Int) * 1000 := by push_cast; ring
  have hts : (max (0 : Int) (Int.fdiv ((t * 1000 : Nat) : Int) 1000)).toNat = t := by
    rw [h1, Int.mul_fdiv_cancel _ (by norm_num)]
    omega
  simp only [formatDuration, hts]

/-- C3 counterexample: 90,000 ms renders as "1m", not the claimed
"1m 30s" (seconds are pushed only when no larger unit was pushed). -/
theorem c3_counterexample_minutes_only : formatDuration 90000 ≠ "1m 30s" := by decide

/-- C3 (amended): 0 ms renders "0s", 90,000 ms renders "1m",
90,000,000 ms renders "1d 1h"; in general days/hours/minutes appear
exactly when nonzero and the seconds part appears exactly when days,
hours and minutes are all zero. -/
theorem c3_duration_format :
    formatDuration 0 = "0s" ∧ formatDuration 90000 = "1m" ∧
    formatDuration 90000000 = "1d 1h" ∧
    ∀ (d h m s : Nat), h < 24 → m < 60 → s < 60 →
      formatDuration (((d * 86400 + h * 3600 + m * 60 + s) * 1000 : Nat) : Int) =
        joinWith " "
          ((if d ≠ 0 then [toString d ++ "d"] else []) ++
           (if h ≠ 0 then [toString h ++ "h"] else []) ++
           (if m ≠ 0 then [toString m ++ "m"] else []) ++
           (if d = 0 ∧ h = 0 ∧ m = 0 then [toString s ++ "s"] else [])) := by
  refine ⟨by decide, by decide, by decide, ?_⟩
  intro d h m s hh hm hs
  have e1 : (d * 86400 + h * 3600 + m * 60 + s) / 86400 = d := by omega
  have e2 : (d * 86400 + h * 3600 + m * 60 + s) % 86400 / 3600 = h := by omega
  have e3 : (d * 86400 + h * 3600 + m * 60 + s) % 3600 / 60 = m := by omega
  have e4 : (d * 86400 + h * 3600 + m * 60 + s) % 60 = s := by omega
  rw [formatDuration_natSeconds, e1, e2, e3, e4]
  by_cases hd0 : d = 0 <;> by_cases hh0 : h = 0 <;> by_cases hm0 : m = 0 <;>
    simp [hd0, hh0, hm0]

/-- Witness for C3: instantiating the general part at 1 minute 30
seconds evaluates to "1m". -/
theorem c3_duration_format_witness :
    formatDuration (((0 * 86400 + 0 * 3600 + 1 * 60 + 30) * 1000 : Nat) : Int) = "1m" := by
  have h := c3_duration_format.2.2.2 0 0 1 30 (by norm_num) (by norm_num) (by norm_num)
  rw [h]
  decide

/-! ### C5: normalizeRequestedLogLines -/

/-- C5 counterexample: requesting exactly 50 lines sets the cap-enforced
flag although the effective count (50) is not a reduction of the
requested count, refuting "the flag is set exactly when the requested
count was reduced to the maximum allowed". -/
theorem c5_counterexample_cap_at_fifty :
    ¬ ((normalizeRequestedLogLines (some 50)).maxEnforced = true →
       (normalizeRequestedLogLines (some 50)).lines < 50) := by decide

/-- C5 (amended): the effective count always lies in [1, 50]; `null` or
non-positive requests default to 10 with no flag; requests in (0, 50)
pass through unflagged; the cap-enforced flag is set exactly when the
request was at least the maximum 50 (so a request of exactly 50 is
flagged although unchanged); and 0 ↦ 10, 75 ↦ 50 flagged, 25 ↦ 25
unflagged. -/
theorem c5_clamp :
    ∀ linesArg : Option Int,
      (1 ≤ (normalizeRequestedLogLines linesArg).lines ∧
       (normalizeRequestedLogLines linesArg).lines ≤ 50) ∧
      ((normalizeRequestedLogLines linesArg).maxEnforced = true ↔
        ∃ p, linesArg = some p ∧ 50 ≤ p) ∧
      (∀ p : Int, linesArg = some p → p ≤ 0 →
         (normalizeRequestedLogLines linesArg).lines = 10 ∧
         (normalizeRequestedLogLines linesArg).maxEnforced = false) ∧
      (∀ p : Int, linesArg = some p → 0 < p → p < 50 →
         ((normalizeRequestedLogLines linesArg).lines : Int) = p ∧
         (normalizeRequestedLogLines linesArg).maxEnforced = false) ∧
      (normalizeRequestedLogLines none).lines = 10 ∧
      (normalizeRequestedLogLines none).maxEnforced = false ∧
      (normalizeRequestedLogLines (some 0)).lines = 10 ∧
      (normalizeRequestedLogLines (some 0)).maxEnforced = false ∧
      (normalizeRequestedLogLines (some 75)).lines = 50 ∧
      (normalizeRequestedLogLines (some 75)).maxEnforced = true ∧
      (normalizeRequestedLogLines (some 25)).lines = 25 ∧
      (normalizeRequestedLogLines (some 25)).maxEnforced = false := by
  intro linesArg
  refine ⟨?_, ?_, ?_, ?_, by decide, by decide, by decide, by decide, by decide,
          by decide, by decide, by decide⟩
  · cases linesArg with
    | none => exact ⟨by decide, by decide⟩
    | some p =>
      by_cases h1 : p ≤ 0
      · norm_num [normalizeRequestedLogLines, if_pos h1]
      · by_cases h2 : (50 : Int) ≤ p
        · norm_num [normalizeRequestedLogLines, if_neg h1, if_pos h2]
        · simp only [normalizeRequestedLogLines, if_neg h1, if_neg h2]
          omega
  · cases linesArg with
    | none => simp [normalizeRequestedLogLines]
    | some p =>
      simp only [normalizeRequestedLogLines]
      split
      · simp only [Bool.false_eq_true, false_iff]
        rintro ⟨q, hq, hq50⟩
        cases hq
        omega
      · split
        · simp only [true_iff]
          exact ⟨p, rfl, by omega⟩
        · simp only [Bool.false_eq_true, false_iff]
          rintro ⟨q, hq, hq50⟩
          cases hq
          omega
  · rintro p rfl hp
    simp [normalizeRequestedLogLines, if_pos hp]
  · rintro p rfl hp0 hp50
    have h1 : ¬ p ≤ 0 := by omega
    have h2 : ¬ 50 ≤ p := by omega
    simp only [normalizeRequestedLogLines, if_neg h1, if_neg h2]
    refine ⟨?_, by simp⟩
    omega

/-- Witness for C5: the in-range branch applied at a request of 25. -/
theorem c5_clamp_witness :
    ((normalizeRequestedLogLines (some 25)).lines : Int) = 25 ∧
    (normalizeRequestedLogLines (some 25)).maxEnforced = false := by
  obtain ⟨-, -, -, hin, -⟩ := c5_clamp (some 25)
  exact hin 25 rfl (by norm_num) (by norm_num)

/-! ### C1 / C9: the status pipeline -/

/-- C1: in `buildStatusReport` the change flag (on every successful run)
equals `isValid(current) && isValid(previous) && current ≠ previous`, the
state file is written exactly when the current address is valid and (the
flag is set or no valid previous value exists), and the three spec
scenarios evaluate accordingly: same address → no change, no write;
absent previous → no change but first-observation write; current
"unknown" over a valid previous → no change, no write. -/
theorem c1_change_flag_and_persist :
    (∀ (env : PipelineEnv) (stateFile : Option String),
       (buildStatusReport env stateFile).1.map StatusReport.externalIpChanged =
         env.containersResult.map (fun _ =>
           isValidExternalIp env.externalIp &&
           isValidExternalIpOpt (readLastExternalIp stateFile) &&
           !(readLastExternalIp stateFile == some env.externalIp))) ∧
    (∀ (env : PipelineEnv) (stateFile : Option String),
       (buildStatusReport env stateFile).2 =
         (if isValidExternalIp env.externalIp &&
             ((isValidExternalIp env.externalIp &&
               isValidExternalIpOpt (readLastExternalIp stateFile) &&
               !(readLastExternalIp stateFile == some env.externalIp)) ||
              !isValidExternalIpOpt (readLastExternalIp stateFile))
          then some (writeLastExternalIp env.externalIp)
          else stateFile)) ∧
    ((buildStatusReport ⟨"gw", "1.2.3.4", some []⟩ (some "1.2.3.4\n")).1.map
        StatusReport.externalIpChanged = some false ∧
     (buildStatusReport ⟨"gw", "1.2.3.4", some []⟩ (some "1.2.3.4\n")).2 =
        some "1.2.3.4\n") ∧
    ((buildStatusReport ⟨"gw", "5.6.7.8", some []⟩ none).1.map
        StatusReport.externalIpChanged = some false ∧
     (buildStatusReport ⟨"gw", "5.6.7.8", some []⟩ none).2 = some "5.6.7.8\n") ∧
    ((buildStatusReport ⟨"gw", "unknown", some []⟩ (some "1.2.3.4\n")).1.map
        StatusReport.externalIpChanged = some false ∧
     (buildStatusReport ⟨"gw", "unknown", some []⟩ (some "1.2.3.4\n")).2 =
        some "1.2.3.4\n") := by
  refine ⟨?_, ?_, by decide, by decide, by decide⟩
  · intro env stateFile
    cases hc : env.containersResult with
    | none => simp [buildStatusReport, hc]
    | some cs => simp [buildStatusReport, hc]
  · intro env stateFile
    cases hc : env.containersResult with
    | none => simp [buildStatusReport, hc]
    | some cs => simp [buildStatusReport, hc]

/-- C9: when the container listing fails, the caller gets no report
(`null`), yet there is no rollback: if the persisted-IP write condition
held earlier in the same invocation, the state file afterwards holds the
freshly written value, not its prior content. -/
theorem c9_no_rollback_on_list_failure :
    ∀ (env : PipelineEnv) (stateFile : Option String),
      env.containersResult = none →
      (buildStatusReport env stateFile).1 = none ∧
      ((isValidExternalIp env.externalIp &&
        ((isValidExternalIp env.externalIp &&
          isValidExternalIpOpt (readLastExternalIp stateFile) &&
          !(readLastExternalIp stateFile == some env.externalIp)) ||
         !isValidExternalIpOpt (readLastExternalIp stateFile))) = true →
        (buildStatusReport env stateFile).2 = some (writeLastExternalIp env.externalIp)) := by
  intro env stateFile hc
  constructor
  · simp [buildStatusReport, hc]
  · intro hw
    simp [buildStatusReport, hc, hw]

/-- Witness for C9: containers fail while a valid first observation
"5.6.7.8" was just persisted; the report is null but the file keeps the
new value. -/
theorem c9_no_rollback_on_list_failure_witness :
    (buildStatusReport ⟨"gw", "5.6.7.8", none⟩ none).1 = none ∧
    (buildStatusReport ⟨"gw", "5.6.7.8", none⟩ none).2 = some "5.6.7.8\n" := by
  have h := c9_no_rollback_on_list_failure ⟨"gw", "5.6.7.8", none⟩ none rfl
  exact ⟨h.1, h.2 (by decide)⟩

/-! ### C6: the authorization gate -/

/-- C6: a command whose origin channel violates a configured channel
allow-list, or whose issuer violates a configured user allow-list, is
silently ignored: the handler returns before any reply and before any
command handler is dispatched. -/
theorem c6_auth_gate_silent_ignore :
    ∀ (cfg : AuthConfig) (i : Interaction),
      ((∃ c, cfg.allowedChannelId = some c ∧ c ≠ "" ∧ i.channelId ≠ c) ∨
       (∃ u, cfg.allowedUserId = some u ∧ u ≠ "" ∧ i.userId ≠ u)) →
      handleInteraction cfg i = none := by
  intro cfg i h
  have hblock : channelBlocked cfg i = true ∨ userBlocked cfg i = true := by
    rcases h with ⟨c, hc, hcne, hne⟩ | ⟨u, hu, hune, hne⟩
    · left
      simp [channelBlocked, hc, hcne, hne]
    · right
      simp [userBlocked, hu, hune, hne]
  unfold handleInteraction
  rcases hblock with hb | hb
  · simp [hb]
  · simp [hb]

/-- Witness for C6: a channel restriction on "chan-1" silently drops a
command arriving from "chan-2". -/
theorem c6_auth_gate_silent_ignore_witness :
    handleInteraction ⟨some "chan-1", none⟩ ⟨true, "chan-2", "user-1", "ping"⟩ = none :=
  c6_auth_gate_silent_ignore ⟨some "chan-1", none⟩ ⟨true, "chan-2", "user-1", "ping"⟩
    (Or.inl ⟨"chan-1", rfl, by decide, by decide⟩)

/-! ### C7: stop/start idempotence -/

/-- C7: stopping an already-stopped container replies
"name is already stopped." and issues no stop call to the runtime;
starting an already-running container replies "name is already running."
and issues no start call — only the inspection call is made, so the
runtime state is untouched in both no-op cases. -/
theorem c7_stop_start_idempotent :
    ∀ (inspectResult : String → Option ContainerInfo) (stopOk startOk : Bool)
      (containerName : String) (details : ContainerInfo),
      containerName ≠ "" →
      inspectResult containerName = some details →
      (details.running = false →
         stopContainer inspectResult stopOk containerName =
           (containerName ++ " is already stopped.", [DockerCall.inspect containerName])) ∧
      (details.running = true →
         startContainer inspectResult startOk containerName =
           (containerName ++ " is already running.", [DockerCall.inspect containerName])) := by
  intro ir stopOk startOk name details hne hins
  constructor
  · intro hr
    unfold stopContainer
    rw [if_neg hne, hins]
    simp [hr]
  · intro hr
    unfold startContainer
    rw [if_neg hne, hins]
    simp [hr]

/-- Witness for C7: a stopped "web" and a running "db". -/
theorem c7_stop_start_idempotent_witness :
    stopContainer (fun _ => some ⟨false⟩) true "web" =
      ("web is already stopped.", [DockerCall.inspect "web"]) ∧
    startContainer (fun _ => some ⟨true⟩) true "db" =
      ("db is already running.", [DockerCall.inspect "db"]) := by
  constructor
  · exact (c7_stop_start_idempotent (fun _ => some ⟨false⟩) true true "web" ⟨false⟩
      (by decide) rfl).1 rfl
  · exact (c7_stop_start_idempotent (fun _ => some ⟨true⟩) true true "db" ⟨true⟩
      (by decide) rfl).2 rfl

/-! ### C2: formatStatusReport truncation -/

theorem joinWith_cons_cons (sep a b : String) (rest : List String) :
    joinWith sep (a :: b :: rest) = a ++ sep ++ joinWith sep (b :: rest) := rfl

theorem joinWith_append_singleton (sep : String) (acc : List String) (s : String) :
    (joinWith sep (acc ++ [s])).length =
      (joinWith sep acc).length + (if acc.isEmpty then 0 else sep.length) + s.length := by
  induction acc with
  | nil => simp [joinWith]
  | cons a t ih =>
    cases t with
    | nil =>
      show (joinWith sep [a, s]).length = _
      rw [joinWith_cons_cons]
      show (a ++ sep ++ s).length = _
      simp [joinWith, String.length_append]
    | cons b u =>
      have h1 : (a :: b :: u) ++ [s] = a :: b :: (u ++ [s]) := by simp
      rw [h1, joinWith_cons_cons]
      have h2 : (b :: (u ++ [s])) = (b :: u) ++ [s] := by simp
      rw [String.length_append, String.length_append, h2, ih, joinWith_cons_cons,
          String.length_append, String.length_append]
      simp only [List.isEmpty_cons]
      omega

theorem statusLinesLoop_budget (available : Int) :
    ∀ (rest acc : List String) (used : Nat),
      used = (joinWith "\n" acc).length →
      (used : Int) ≤ available →
      ((joinWith "\n" (statusLinesLoop available rest acc used)).length : Int) ≤ available := by
  intro rest
  induction rest with
  | nil =>
    intro acc used hused hle
    simp only [statusLinesLoop]
    omega
  | cons line rest ih =>
    intro acc used hused hle
    have hsep : ("\n" : String).length = 1 := rfl
    simp only [statusLinesLoop]
    by_cases hacc : acc.isEmpty
    · simp only [if_pos hacc]
      split
      · split
        · rename_i hex hfit
          rw [joinWith_append_singleton, hsep, if_pos hacc]
          omega
        · omega
      · rename_i hex
        apply ih
        · rw [joinWith_append_singleton, hsep, if_pos hacc]
          omega
        · omega
    · simp only [if_neg hacc]
      split
      · split
        · rename_i hex hfit
          rw [joinWith_append_singleton, hsep, if_neg hacc]
          omega
        · omega
      · rename_i hex
        apply ih
        · rw [joinWith_append_singleton, hsep, if_neg hacc]
          omega
        · omega

theorem statusLinesLoop_greedy (available : Int) :
    ∀ (rest acc : List String) (used : Nat),
      used = (joinWith "\n" acc).length →
      ∃ k, k ≤ rest.length ∧
        ((k = rest.length ∧ statusLinesLoop available rest acc used = acc ++ rest) ∨
         (k < rest.length ∧
          (∀ line tail, rest.drop k = line :: tail →
             available <
               (((joinWith "\n" (acc ++ rest.take k)).length +
                 (if (acc ++ rest.take k).isEmpty then 0 else 1) + line.length : Nat) : Int)) ∧
          (((((joinWith "\n" (acc ++ rest.take k)).length +
              (if (acc ++ rest.take k).isEmpty then 0 else 1) +
              (truncationMessage (rest.length - k)).length : Nat) : Int) ≤ available ∧
            statusLinesLoop available rest acc used =
              acc ++ rest.take k ++ [truncationMessage (rest.length - k)]) ∨
           (available <
              (((joinWith "\n" (acc ++ rest.take k)).length +
                (if (acc ++ rest.take k).isEmpty then 0 else 1) +
                (truncationMessage (rest.length - k)).length : Nat) : Int) ∧
            statusLinesLoop available rest acc used = acc ++ rest.take k)))) := by
  intro rest
  induction rest with
  | nil =>
    intro acc used hused
    exact ⟨0, Nat.le_refl 0, Or.inl ⟨rfl, by simp [statusLinesLoop]⟩⟩
  | cons line rest ih =>
    intro acc used hused
    have hsep : ("\n" : String).length = 1 := rfl
    simp only [statusLinesLoop]
    by_cases hex : available <
        (used : Int) + (((if acc.isEmpty then 0 else 1) + line.length : Nat) : Int)
    · rw [if_pos hex]
      by_cases hfit : (used : Int) + (((if acc.isEmpty then 0 else 1) +
          (truncationMessage (rest.length + 1)).length : Nat) : Int) ≤ available
      · rw [if_pos hfit]
        refine ⟨0, Nat.zero_le _, Or.inr ⟨by simp, ?_, Or.inl ⟨?_, ?_⟩⟩⟩
        · intro l t h
          rw [List.drop_zero] at h
          injection h with h1 h2
          subst h1
          simp only [List.take_zero, List.append_nil]
          omega
        · simp only [List.take_zero, List.append_nil, List.length_cons, Nat.sub_zero]
          omega
        · simp
      · rw [if_neg hfit]
        refine ⟨0, Nat.zero_le _, Or.inr ⟨by simp, ?_, Or.inr ⟨?_, ?_⟩⟩⟩
        · intro l t h
          rw [List.drop_zero] at h
          injection h with h1 h2
          subst h1
          simp only [List.take_zero, List.append_nil]
          omega
        · simp only [List.take_zero, List.append_nil, List.length_cons, Nat.sub_zero]
          omega
        · simp
    · rw [if_neg hex]
      have hused' : used + ((if acc.isEmpty then 0 else 1) + line.length) =
          (joinWith "\n" (acc ++ [line])).length := by
        rw [joinWith_append_singleton, hsep]
        omega
      obtain ⟨k, hk, hcase⟩ :=
        ih (acc ++ [line]) (used + ((if acc.isEmpty then 0 else 1) + line.length)) hused'
      have htake : (line :: rest).take (k + 1) = line :: rest.take k := List.take_succ_cons
      have hdrop : (line :: rest).drop (k + 1) = rest.drop k := List.drop_succ_cons
      have happ : acc ++ (line :: rest.take k) = (acc ++ [line]) ++ rest.take k := by simp
      have hlen2 : (line :: rest).length - (k + 1) = rest.length - k := by simp
      rcases hcase with ⟨hkeq, hres⟩ | ⟨hklt, hnext, hinner⟩
      · refine ⟨k + 1, by simp only [List.length_cons]; omega, Or.inl ⟨?_, ?_⟩⟩
        · simp only [List.length_cons]
          omega
        · rw [hres]
          simp
      · refine ⟨k + 1, by simp only [List.length_cons]; omega,
          Or.inr ⟨by simp only [List.length_cons]; omega, ?_, ?_⟩⟩
        · intro l t h
          rw [hdrop] at h
          rw [htake, happ]
          exact hnext l t h
        · rcases hinner with ⟨hcond, hres⟩ | ⟨hcond, hres⟩
          · refine Or.inl ⟨?_, ?_⟩
            · rw [htake, happ, hlen2]
              exact hcond
            · rw [hres, htake, hlen2]
              simp
          · refine Or.inr ⟨?_, ?_⟩
            · rw [htake, happ, hlen2]
              exact hcond
            · rw [hres, htake]
              simp

theorem statusHeader_length (g e : String) (n : Nat) :
    (statusHeader g e n).length =
      43 + g.length + 20 + e.length + 27 + (toString n).length + 17 := by
  have hA : ("📊 **Homelab Status Report**\n\n**Host IP:** `" : String).length = 43 := by decide
  have hB : ("`\n**External IP:** `" : String).length = 20 := by decide
  have hC : ("`\n**Running containers:** `" : String).length = 27 := by decide
  have hD : ("`\n\n**Containers**" : String).length = 17 := by decide
  simp only [statusHeader, String.length_append, hA, hB, hC, hD]

theorem formatStatusReport_length (g e : String) (cs : List ContainerEntry) :
    (formatStatusReport g e cs).length =
      (statusHeader g e cs.length).length + 1 +
      (joinWith "\n" (statusLinesLoop
        (1900 - ((statusHeader g e cs.length).length : Int) - 1)
        (formattedContainerLines cs) [] 0)).length := by
  have hsep : ("\n" : String).length = 1 := rfl
  simp only [formatStatusReport, String.length_append, hsep]

theorem statusLinesLoop_neg_empty (available : Int) (hA : available < 0)
    (line : String) (rest : List String) :
    statusLinesLoop available (line :: rest) [] 0 = [] := by
  simp only [statusLinesLoop]
  by_cases hex : available <
      ((0 : Nat) : Int) +
        (((if ([] : List String).isEmpty then 0 else 1) + line.length : Nat) : Int)
  · rw [if_pos hex]
    have hfit : ¬ (((0 : Nat) : Int) +
        (((if ([] : List String).isEmpty then 0 else 1) +
          (truncationMessage (rest.length + 1)).length : Nat) : Int) ≤ available) := by
      omega
    rw [if_neg hfit]
  · exfalso
    omega

/-- C2 counterexample: with a 2000-character external IP string the
header alone exceeds the budget, so the report is longer than 1900
characters — the claimed bound does not hold for every input string. -/
theorem c2_counterexample_header_overflow :
    1900 <
      (formatStatusReport "unknown" (String.mk (List.replicate 2000 'a')) []).length := by
  have hbig : (String.mk (List.replicate 2000 'a')).length = 2000 := by
    rw [show (String.mk (List.replicate 2000 'a')).length
        = (List.replicate 2000 'a').length from rfl, List.length_replicate]
  have h7 : ("unknown" : String).length = 7 := by decide
  have h1 : (toString (0 : Nat)).length = 1 := by decide
  have hhdr : (statusHeader "unknown" (String.mk (List.replicate 2000 'a')) 0).length = 2115 := by
    rw [statusHeader_length, hbig, h7, h1]
  have hnil : (([] : List ContainerEntry)).length = 0 := rfl
  rw [formatStatusReport_length, hnil, hhdr]
  have hloop := statusLinesLoop_neg_empty
    (1900 - ((2115 : Nat) : Int) - 1) (by norm_num)
    "(no running containers)" []
  have hfc : formattedContainerLines [] = ["(no running containers)"] := rfl
  rw [hfc, hloop]
  decide

/-- C2 (amended): provided the header together with its following
newline fits the 1900-character budget, the report is at most 1900
characters and the emitted container lines are a greedy initial segment
of the formatted lines: either all lines fit, or at the first line that
would overflow the remaining budget the output ends with the single
summary line "…and K more", K being the exact number of omitted lines,
when that summary fits, and ends at the last fitting line otherwise.
The original claim's unconditional bound for every input string fails
(see the counterexample): the proviso on the header is required. -/
theorem c2_report_truncation :
    ∀ (gatewayIp externalIp : String) (containers : List ContainerEntry),
      (statusHeader gatewayIp externalIp containers.length).length + 1 ≤ 1900 →
      (formatStatusReport gatewayIp externalIp containers).length ≤ 1900 ∧
      (∃ k, k ≤ (formattedContainerLines containers).length ∧
        ((k = (formattedContainerLines containers).length ∧
          statusLinesLoop
              (1900 - ((statusHeader gatewayIp externalIp containers.length).length : Int) - 1)
              (formattedContainerLines containers) [] 0 =
            formattedContainerLines containers) ∨
         (k < (formattedContainerLines containers).length ∧
          (∀ line tail, (formattedContainerLines containers).drop k = line :: tail →
             1900 - ((statusHeader gatewayIp externalIp containers.length).length : Int) - 1 <
               (((joinWith "\n" ((formattedContainerLines containers).take k)).length +
                 (if ((formattedContainerLines containers).take k).isEmpty then 0 else 1) +
                 line.length : Nat) : Int)) ∧
          (((((joinWith "\n" ((formattedContainerLines containers).take k)).length +
              (if ((formattedContainerLines containers).take k).isEmpty then 0 else 1) +
              (truncationMessage ((formattedContainerLines containers).length - k)).length
              : Nat) : Int) ≤
              1900 - ((statusHeader gatewayIp externalIp containers.length).length : Int) - 1 ∧
            statusLinesLoop
                (1900 - ((statusHeader gatewayIp externalIp containers.length).length : Int) - 1)
                (formattedContainerLines containers) [] 0 =
              (formattedContainerLines containers).take k ++
                [truncationMessage ((formattedContainerLines containers).length - k)]) ∨
           (1900 - ((statusHeader gatewayIp externalIp containers.length).length : Int) - 1 <
              (((joinWith "\n" ((formattedContainerLines containers).take k)).length +
                (if ((formattedContainerLines containers).take k).isEmpty then 0 else 1) +
                (truncationMessage ((formattedContainerLines containers).length - k)).length
                : Nat) : Int) ∧
            statusLinesLoop
                (1900 - ((statusHeader gatewayIp externalIp containers.length).length : Int) - 1)
                (formattedContainerLines containers) [] 0 =
              (formattedContainerLines containers).take k))))) := by
  intro g e cs hhdr
  constructor
  · have hb := statusLinesLoop_budget
      (1900 - ((statusHeader g e cs.length).length : Int) - 1)
      (formattedContainerLines cs) [] 0 rfl (by push_cast; omega)
    rw [formatStatusReport_length]
    omega
  · obtain ⟨k, hk, hcase⟩ := statusLinesLoop_greedy
      (1900 - ((statusHeader g e cs.length).length : Int) - 1)
      (formattedContainerLines cs) [] 0 rfl
    refine ⟨k, hk, ?_⟩
    simpa using hcase

/-- Witness for C2: a small report whose header fits the budget. -/
theorem c2_report_truncation_witness :
    (formatStatusReport "unknown" "1.2.3.4" []).length ≤ 1900 :=
  (c2_report_truncation "unknown" "1.2.3.4" [] (by decide)).1

/-! ### C4: getGatewayIpAddress -/

theorem findDefaultGateway_eq_none_iff :
    ∀ lines : List String,
      findDefaultGateway lines = none ↔ ∀ l ∈ lines, routeFieldsQualify l = none := by
  intro lines
  induction lines with
  | nil => simp [findDefaultGateway]
  | cons a t ih =>
    simp only [findDefaultGateway]
    cases hq : routeFieldsQualify a with
    | some gw => simp [hq]
    | none => simp [hq, ih]

theorem hexToIp_ne_unknown (s : String) : hexToIp s ≠ "unknown" := by
  intro hcontra
  have hdot : '.' ∈ (hexToIp s).data := by
    show '.' ∈ (joinWith "."
      [jsNumToString (jsParseIntHex (jsSubstringChars s.data 6 8)),
       jsNumToString (jsParseIntHex (jsSubstringChars s.data 4 6)),
       jsNumToString (jsParseIntHex (jsSubstringChars s.data 2 4)),
       jsNumToString (jsParseIntHex (jsSubstringChars s.data 0 2))]).data
    rw [joinWith_cons_cons, String.data_append, String.data_append]
    refine List.mem_append_left _ (List.mem_append_right _ ?_)
    show '.' ∈ (("." : String)).data
    decide
  rw [hcontra] at hdot
  exact absurd hdot (by decide)

set_option maxRecDepth 40000 in
theorem hexPair_parse (b : Nat) (hb : b < 256) :
    jsNumToString (jsParseIntHex [hexDigitChar (b / 16), hexDigitChar (b % 16)]) =
      toString b := by
  revert hb
  revert b
  decide

theorem hexToIp_hexPairs (b0 b1 b2 b3 : Nat)
    (h0 : b0 < 256) (h1 : b1 < 256) (h2 : b2 < 256) (h3 : b3 < 256) :
    hexToIp (hexPair b0 ++ hexPair b1 ++ hexPair b2 ++ hexPair b3) =
      toString b3 ++ "." ++ toString b2 ++ "." ++ toString b1 ++ "." ++ toString b0 := by
  have hdata : (hexPair b0 ++ hexPair b1 ++ hexPair b2 ++ hexPair b3).data =
      [hexDigitChar (b0 / 16), hexDigitChar (b0 % 16),
       hexDigitChar (b1 / 16), hexDigitChar (b1 % 16),
       hexDigitChar (b2 / 16), hexDigitChar (b2 % 16),
       hexDigitChar (b3 / 16), hexDigitChar (b3 % 16)] := by
    simp [String.data_append, hexPair]
  unfold hexToIp
  rw [hdata]
  show joinWith "."
      [jsNumToString (jsParseIntHex [hexDigitChar (b3 / 16), hexDigitChar (b3 % 16)]),
       jsNumToString (jsParseIntHex [hexDigitChar (b2 / 16), hexDigitChar (b2 % 16)]),
       jsNumToString (jsParseIntHex [hexDigitChar (b1 / 16), hexDigitChar (b1 % 16)]),
       jsNumToString (jsParseIntHex [hexDigitChar (b0 / 16), hexDigitChar (b0 % 16)])] = _
  rw [hexPair_parse b0 h0, hexPair_parse b1 h1, hexPair_parse b2 h2, hexPair_parse b3 h3]
  rw [joinWith_cons_cons, joinWith_cons_cons, joinWith_cons_cons,
      show joinWith "." [toString b0] = toString b0 from rfl]
  apply String.ext
  simp [String.data_append]

/-- C4 counterexample: a routing line carrying destination "00000000"
but lacking a gateway field still yields "unknown" on a readable file,
so "unknown iff the file is unreadable or no non-header line has
destination field 00000000" is false as stated: the loop also requires a
present (non-empty) gateway field. -/
theorem c4_counterexample_missing_gateway_field :
    getGatewayIpAddress (some "Iface Destination Gateway\neth0 00000000") = "unknown" ∧
    ¬ (∀ l ∈ gatewayRouteLines "Iface Destination Gateway\neth0 00000000",
        (jsSplitWs l).getD 1 "" ≠ "00000000") := by decide

/-- C4 (amended): getGatewayIpAddress is a total function (never
throws); it returns the "unknown" sentinel iff the routing file is
unreadable or no non-header line has both destination field "00000000"
and a present gateway field; when a qualifying line exists it returns
hexToIp of that line's gateway field; and hexToIp renders the four bytes
of the little-endian hex encoding in reversed order as dotted decimal. -/
theorem c4_gateway_unknown_iff :
    getGatewayIpAddress none = "unknown" ∧
    (∀ routeData : String,
       (getGatewayIpAddress (some routeData) = "unknown" ↔
         ∀ l ∈ gatewayRouteLines routeData, routeFieldsQualify l = none)) ∧
    (∀ (routeData : String) (gw : String),
       findDefaultGateway (gatewayRouteLines routeData) = some gw →
       getGatewayIpAddress (some routeData) = hexToIp gw) ∧
    (∀ b0 b1 b2 b3 : Nat, b0 < 256 → b1 < 256 → b2 < 256 → b3 < 256 →
       hexToIp (hexPair b0 ++ hexPair b1 ++ hexPair b2 ++ hexPair b3) =
         toString b3 ++ "." ++ toString b2 ++ "." ++ toString b1 ++ "." ++ toString b0) := by
  refine ⟨rfl, ?_, ?_, hexToIp_hexPairs⟩
  · intro routeData
    cases hf : findDefaultGateway (gatewayRouteLines routeData) with
    | none =>
      simp only [getGatewayIpAddress, hf]
      constructor
      · intro _
        exact (findDefaultGateway_eq_none_iff _).mp hf
      · intro _
        trivial
    | some gw =>
      simp only [getGatewayIpAddress, hf]
      constructor
      · intro hcontra
        exact absurd hcontra (hexToIp_ne_unknown gw)
      · intro hall
        have hnone := (findDefaultGateway_eq_none_iff (gatewayRouteLines routeData)).mpr hall
        rw [hf] at hnone
        exact absurd hnone (by simp)
  · intro routeData gw hf
    simp only [getGatewayIpAddress, hf]

/-- Witness for C4: a default-route line with gateway hex "0101A8C0",
and the reversal property at the bytes of 192.168.1.1. -/
theorem c4_gateway_unknown_iff_witness :
    getGatewayIpAddress (some "Iface\neth0 00000000 0101A8C0") = hexToIp "0101A8C0" ∧
    hexToIp (hexPair 1 ++ hexPair 1 ++ hexPair 168 ++ hexPair 192) =
      toString (192 : Nat) ++ "." ++ toString (168 : Nat) ++ "." ++
      toString (1 : Nat) ++ "." ++ toString (1 : Nat) := by
  constructor
  · exact c4_gateway_unknown_iff.2.2.1 "Iface\neth0 00000000 0101A8C0" "0101A8C0" (by decide)
  · exact c4_gateway_unknown_iff.2.2.2 1 1 168 192 (by decide) (by decide) (by decide) (by decide)

/-- Witness for C10: the round trip at the address "5.6.7.8". -/
theorem c10_write_read_roundtrip_witness :
    readLastExternalIp (some (writeLastExternalIp "5.6.7.8")) = some "5.6.7.8" :=
  c10_write_read_roundtrip.1 "5.6.7.8" (by decide) (by decide)
